import Mathlib

/-!
Verification development for the VibeAIRouter provider-routing core.

The definitions below are shallow embeddings of the JavaScript sources:
  - `src/errors/index.js`        (error taxonomy, `ErrorUtils`)
  - `src/providers/base.js`      (`BaseProvider`: health state, `chatCompletion`,
                                  `checkHealth`, `handleError`, `resetErrorState`)
  - `src/services/ProviderRegistry.js` (model directory, read/write lock)
  - `src/services/RequestForwarder.js` (forwarding, usage events, token accounting)
  - `src/services/StreamHandler.js`    (SSE relay and its writes to the caller)
  - `src/services/database.js`         (`recordRequest`, which logs and swallows
                                        its own failures)

JavaScript `undefined`/missing fields are modelled with `Option`; numbers with
`Nat`; thrown exceptions with `Except`.  Statements named `*Spec` are written
from the specification wording, to be compared with the code-derived
definitions.
-/

namespace VibeAI

/-! ### Token accounting (`RequestForwarder.calculateTokensUsed`,
`StreamHandler.calculateTokensUsed`; both copies are textually identical) -/

/-- An upstream `usage` object.  Each field is optional, mirroring the
`!== undefined` checks in the source. -/
structure Usage where
  prompt_tokens : Option Nat
  completion_tokens : Option Nat
  total_tokens : Option Nat
deriving Repr, DecidableEq

/-- `calculateTokensUsed(usage)` from `RequestForwarder.js` lines 112-132:
`if (!usage) return 0; if (usage.total_tokens !== undefined) return it;
if (completion && prompt) return sum; if (completion) return it;
if (prompt) return it; return 0`. -/
def calculateTokensUsed : Option Usage → Nat
  | none => 0
  | some u =>
    match u.total_tokens with
    | some t => t
    | none =>
      match u.completion_tokens, u.prompt_tokens with
      | some c, some p => c + p
      | some c, none => c
      | none, some p => p
      | none, none => 0

/-! ### Error taxonomy (`src/errors/index.js`) -/

/-- The concrete error classes of `src/errors/index.js`.  One constructor per
class; `internalErr` is the plain `VibeAIError` produced for unknown errors. -/
inductive ErrorKind
  | modelNotFound
  | providerErr
  | providerUnavailable
  | providerUnhealthy
  | rateLimit
  | authentication
  | timeoutErr
  | networkErr
  | streamErr
  | validation
  | configErr
  | databaseErr
  | internalErr
deriving Repr, DecidableEq

/-- An error value as produced by the classes of `src/errors/index.js`:
the class identity, `this.type`, `this.message`, `this.code`,
`this.provider`. -/
structure ClassifiedError where
  kind : ErrorKind
  etype : String
  message : String
  code : String
  provider : Option String
deriving Repr, DecidableEq

/-- `new ModelNotFoundError(model)`. -/
def modelNotFoundError (model : String) : ClassifiedError :=
  ⟨.modelNotFound, "invalid_request_error",
    "Model " ++ model ++ " is not supported", "model_not_found", none⟩

/-- `new ProviderError(message, code, provider)`. -/
def providerError (message code provider : String) : ClassifiedError :=
  ⟨.providerErr, "provider_error", message, code, some provider⟩

/-- `new ProviderUnavailableError(provider)`. -/
def providerUnavailableError (provider : String) : ClassifiedError :=
  ⟨.providerUnavailable, "provider_error",
    "Provider " ++ provider ++ " is not available", "provider_unavailable",
    some provider⟩

/-- `new ProviderUnhealthyError(provider)`. -/
def providerUnhealthyError (provider : String) : ClassifiedError :=
  ⟨.providerUnhealthy, "provider_error",
    "Provider " ++ provider ++ " is currently unavailable", "provider_unhealthy",
    some provider⟩

/-- `new RateLimitError(provider)`. -/
def rateLimitError (provider : Option String) : ClassifiedError :=
  ⟨.rateLimit, "rate_limit_error", "Rate limit exceeded", "rate_limit_exceeded",
    provider⟩

/-- `new AuthenticationError(provider)`. -/
def authenticationError (provider : Option String) : ClassifiedError :=
  ⟨.authentication, "authentication_error",
    "Invalid API key or authentication failed", "invalid_api_key", provider⟩

/-- `new TimeoutError(provider)`. -/
def timeoutError (provider : Option String) : ClassifiedError :=
  ⟨.timeoutErr, "timeout_error", "Request timeout", "timeout", provider⟩

/-- `new NetworkError(message, provider)`. -/
def networkError (message : String) (provider : Option String) : ClassifiedError :=
  ⟨.networkErr, "network_error", message, "network_error", provider⟩

/-- `new VibeAIError('internal_error', message, 'server_error')` as built by
`ErrorUtils.normalizeError` for unknown errors. -/
def internalError (message : String) : ClassifiedError :=
  ⟨.internalErr, "internal_error", message, "server_error", none⟩

/-- The `instanceof ProviderError` test: `ProviderUnavailableError` and
`ProviderUnhealthyError` are subclasses of `ProviderError`. -/
def isProviderErrorInstance : ErrorKind → Bool
  | .providerErr | .providerUnavailable | .providerUnhealthy => true
  | _ => false

/-- `ErrorUtils.getStatusCode` (`src/errors/index.js` lines 214-239), an
`instanceof` chain over the class hierarchy. -/
def getStatusCode (e : ClassifiedError) : Nat :=
  if e.kind = .modelNotFound ∨ e.kind = .validation then 400
  else if e.kind = .rateLimit then 429
  else if e.kind = .authentication then 500
  else if isProviderErrorInstance e.kind then 503
  else if e.kind = .timeoutErr ∨ e.kind = .networkErr then 504
  else 500

/-- The kind-to-status table exactly as the specification sentence states it:
Validation and ModelNotFound 400, RateLimit 429, Authentication 500,
the three provider kinds 503, Timeout and Network 504, everything else 500. -/
def statusCodeSpec : ErrorKind → Nat
  | .validation => 400
  | .modelNotFound => 400
  | .rateLimit => 429
  | .authentication => 500
  | .providerUnavailable => 503
  | .providerUnhealthy => 503
  | .providerErr => 503
  | .timeoutErr => 504
  | .networkErr => 504
  | _ => 500

/-! ### Raw (axios) failures and their classification -/

/-- The `error.response.data` payload: optional `data.error.message` and
`data.error.code`. -/
structure RawErrorData where
  errMessage : Option String
  errCode : Option String
deriving Repr, DecidableEq

/-- The `error.response` object of an axios error: upstream HTTP status and
body. -/
structure RawResponse where
  status : Nat
  data : RawErrorData
deriving Repr, DecidableEq

/-- A raw transport/HTTP failure as axios delivers it: `message`, an optional
`response` (present for non-2xx upstream statuses) and an optional transport
`code` such as `ECONNABORTED`. -/
structure RawError where
  message : String
  response : Option RawResponse
  transportCode : Option String
deriving Repr, DecidableEq

/-- The error thrown by `BaseProvider.handleError` (`base.js` lines 96-119),
classification part only: 429 to rate limit, 401/403 to authentication, any
other response to `ProviderError` with the upstream message/code defaults,
`ECONNABORTED` to timeout, anything else to network. -/
def classifyError (name : String) (e : RawError) : ClassifiedError :=
  match e.response with
  | some r =>
    if r.status = 429 then rateLimitError (some name)
    else if r.status = 401 ∨ r.status = 403 then authenticationError (some name)
    else
      providerError (r.data.errMessage.getD ("Provider error: " ++ toString r.status))
        (r.data.errCode.getD "provider_error") name
  | none =>
    if e.transportCode = some "ECONNABORTED" then timeoutError (some name)
    else networkError (if e.message = "" then "Network error" else e.message) (some name)

/-- `ErrorUtils.normalizeError` on a raw (non-`VibeAIError`) failure
(`src/errors/index.js` lines 170-209).  Unlike `handleError` it attaches no
provider, and only `ECONNREFUSED`/`ENOTFOUND` become network errors; anything
else falls through to a plain internal error. -/
def normalizeError (e : RawError) : ClassifiedError :=
  match e.response with
  | some r =>
    if r.status = 429 then rateLimitError none
    else if r.status = 401 ∨ r.status = 403 then authenticationError none
    else
      ⟨.providerErr, "provider_error",
        r.data.errMessage.getD ("Provider error: " ++ toString r.status),
        r.data.errCode.getD "provider_error", none⟩
  | none =>
    if e.transportCode = some "ECONNABORTED" then timeoutError none
    else if e.transportCode = some "ECONNREFUSED" ∨ e.transportCode = some "ENOTFOUND" then
      networkError e.message none
    else internalError (if e.message = "" then "Internal server error" else e.message)

/-! ### Provider health state (`src/providers/base.js`) -/

/-- The mutable health record of a `BaseProvider`: `this.isHealthy`,
`this.lastError`, `this.errorCount` (constructor lines 30-33). -/
structure HealthState where
  isHealthy : Bool
  lastError : Option String
  errorCount : Nat
deriving Repr, DecidableEq

/-- `this.maxErrorCount = 5` (constructor line 33). -/
def maxErrorCount : Nat := 5

/-- The state after the constructor: healthy, no error, zero count. -/
def initialHealthState : HealthState := ⟨true, none, 0⟩

/-- `resetErrorState` (lines 122-126): called on every successful
`chatCompletion`. -/
def resetErrorState (_s : HealthState) : HealthState := ⟨true, none, 0⟩

/-- The state-update half of `handleError` (lines 87-94): increment
`errorCount`, store the raw message in `lastError`, and flip `isHealthy` to
false once the count reaches `maxErrorCount`. -/
def handleErrorState (s : HealthState) (msg : String) : HealthState :=
  let c := s.errorCount + 1
  ⟨if maxErrorCount ≤ c then false else s.isHealthy, some msg, c⟩

/-- The upstream outcome of one `chatCompletion` HTTP call. -/
inductive SyncOutcome (α : Type)
  | ok (resp : α)
  | fail (e : RawError)
deriving Repr, DecidableEq

/-- `chatCompletion` (lines 36-53): on success reset the error state and
return the body; on failure run `handleError`, which updates the health state
and throws the classified error. -/
def chatCompletion {α : Type} (name : String) (s : HealthState) :
    SyncOutcome α → HealthState × Except ClassifiedError α
  | .ok resp => (resetErrorState s, .ok resp)
  | .fail e => (handleErrorState s e.message, .error (classifyError name e))

/-- `checkHealth` (lines 55-81).  The probe outcome is `none` on success and
`some msg` on failure.  Success sets `isHealthy := true` and clears
`lastError` but leaves `errorCount` untouched; failure sets
`isHealthy := false`, stores the message and increments the count. -/
def checkHealth (s : HealthState) : Option String → HealthState × Bool
  | none => (⟨true, none, s.errorCount⟩, true)
  | some msg => (⟨false, some msg, s.errorCount + 1⟩, false)

/-- The health snapshot reported by `getStatus` (lines 128-137), restricted to
the fields the claims mention. -/
structure StatusReport where
  healthy : Bool
  errorCount : Nat
  lastError : Option String
deriving Repr, DecidableEq

/-- `getStatus` (lines 128-137): reports `this.isHealthy` as `healthy`. -/
def getStatus (s : HealthState) : StatusReport :=
  ⟨s.isHealthy, s.errorCount, s.lastError⟩

/-- One `chatCompletion` outcome, forgetting the response body. -/
inductive ChatOutcome
  | success
  | failure (e : RawError)
deriving Repr, DecidableEq

/-- The health-state effect of one `chatCompletion` call. -/
def stepChat (s : HealthState) : ChatOutcome → HealthState
  | .success => resetErrorState s
  | .failure e => handleErrorState s e.message

/-- The health state after a sequence of `chatCompletion` calls. -/
def runChat (s : HealthState) (t : List ChatOutcome) : HealthState :=
  t.foldl stepChat s

/-! ### Provider directory (`src/services/ProviderRegistry.js`) -/

/-- A provider object as the registry sees it: `name`, the `_providerId`
stamped by `registerProvider` (absent on objects that never passed through
it), and the health record consulted by `getProviderForModel`. -/
structure ProviderR where
  name : String
  providerId : Option String
  health : HealthState
deriving Repr, DecidableEq

/-- A JS `Map` lookup over an association list (later `set` wins, so lookup
scans from the most recent binding). -/
def mapGet {β : Type} (m : List (String × β)) (k : String) : Option β :=
  match m.reverse.find? (fun p => p.1 = k) with
  | some p => some p.2
  | none => none

/-- JS `Map.has`. -/
def mapHas {β : Type} (m : List (String × β)) (k : String) : Bool :=
  (mapGet m k).isSome

/-- The registry's two maps: `modelProviders` (model name to provider) and
`providers` (provider id to provider). -/
structure RegistryState where
  modelProviders : List (String × ProviderR)
  providers : List (String × ProviderR)
deriving Repr, DecidableEq

/-- The JS truthiness test `!provider._providerId`: true for `undefined` and
for the empty string. -/
def idFalsy : Option String → Bool
  | none => true
  | some s => s = ""

/-- `getProviderForModel` (`ProviderRegistry.js` lines 122-146), the body
inside the read lock: missing binding throws `ModelNotFoundError`; a falsy or
unregistered `_providerId` throws `ProviderUnavailableError`; an unhealthy
provider throws `ProviderUnhealthyError`; otherwise the provider is
returned. -/
def getProviderForModel (st : RegistryState) (model : String) :
    Except ClassifiedError ProviderR :=
  match mapGet st.modelProviders model with
  | none => .error (modelNotFoundError model)
  | some p =>
    if idFalsy p.providerId ∨ ¬ mapHas st.providers (p.providerId.getD "") then
      .error (providerUnavailableError p.name)
    else if ¬ p.health.isHealthy then
      .error (providerUnhealthyError p.name)
    else .ok p

/-- The lookup contract exactly as the claim words it: `ModelNotFound` when no
binding exists; `ProviderUnavailable` when the bound provider is not
registered in the directory under its id; `ProviderUnhealthy` when the bound,
registered provider's health record is currently unhealthy; otherwise the
bound provider. -/
def getProviderForModelSpec (st : RegistryState) (model : String) :
    Except ClassifiedError ProviderR :=
  match mapGet st.modelProviders model with
  | none => .error (modelNotFoundError model)
  | some p =>
    match p.providerId with
    | none => .error (providerUnavailableError p.name)
    | some pid =>
      if ¬ mapHas st.providers pid then .error (providerUnavailableError p.name)
      else if ¬ p.health.isHealthy then .error (providerUnhealthyError p.name)
      else .ok p

/-- Registry states whose stored provider ids are never the empty string, as
produced by `registerProvider` under any non-empty provider id (the id is a
config key such as `siliconflow`). -/
def WellFormedIds (st : RegistryState) : Prop :=
  ∀ mp ∈ st.modelProviders, mp.2.providerId ≠ some ""

instance (st : RegistryState) : Decidable (WellFormedIds st) := by
  unfold WellFormedIds; infer_instance

/-! ### Stream handling (`src/services/StreamHandler.js`) -/

/-- One observable action on the caller's response object. -/
inductive ResWrite
  | sseHeaders
  | chunk (c : String)
  | errorEvent (e : ClassifiedError)
  | endResponse
  | httpErrorBody (status : Nat)
deriving Repr, DecidableEq

/-- How one streaming session ends: the upstream opens and relays to
completion, the upstream handle cannot be obtained (`createUpstreamStream`
rejects), or the pipeline fails after relaying some chunks (upstream error,
timeout-triggered destroy, or client disconnect all surface here as the
pipeline callback error). -/
inductive StreamOutcome
  | completes (chunks : List String)
  | openFails (e : RawError)
  | pipelineFails (chunks : List String) (e : RawError)
deriving Repr, DecidableEq

/-- The sequence of writes `handleStream` performs on the caller's response
(lines 27-103).  `setupStreamResponse` (lines 135-143) sets the SSE headers
and calls `res.flushHeaders()` before the upstream is opened.  On a setup
failure `sendStreamError` (lines 148-164) writes one `data:` event holding the
normalized error and ends the response.  On a pipeline failure
`res.headersSent` is already true, so no error event is written. -/
def handleStreamWrites : StreamOutcome → List ResWrite
  | .completes cs => .sseHeaders :: (cs.map .chunk) ++ [.endResponse]
  | .openFails e => [.sseHeaders, .errorEvent (normalizeError e), .endResponse]
  | .pipelineFails cs _ => .sseHeaders :: cs.map .chunk

/-- The value `handleStream` resolves with (`{stream: true}`, modelled as
`Unit`) or the raw error it rejects with: the setup `catch` rethrows the raw
error, and the pipeline callback rejects with the raw pipeline error. -/
def handleStreamResult : StreamOutcome → Except RawError Unit
  | .completes _ => .ok ()
  | .openFails e => .error e
  | .pipelineFails _ e => .error e

/-- Number of SSE error events in a write trace. -/
def countErrorEvents : List ResWrite → Nat
  | [] => 0
  | .errorEvent _ :: ws => countErrorEvents ws + 1
  | _ :: ws => countErrorEvents ws

/-- Number of structured HTTP error bodies in a write trace. -/
def countHttpErrorBodies : List ResWrite → Nat
  | [] => 0
  | .httpErrorBody _ :: ws => countHttpErrorBodies ws + 1
  | _ :: ws => countHttpErrorBodies ws

/-! ### Usage events and the stats sink
(`src/services/RequestForwarder.js`, `src/services/database.js`) -/

/-- The row handed to `database.recordRequest`: model, provider, success flag,
tokens used and error message.  (`responseTime` is wall-clock time and is not
modelled.) -/
structure UsageEvent where
  model : String
  provider : String
  success : Bool
  tokensUsed : Nat
  errorMessage : Option String
deriving Repr, DecidableEq

/-- `database.recordRequest` (`database.js`): the whole body is wrapped in
`try { insert } catch (error) { logger.error(...) }`, so a sink failure is
logged and swallowed and the call never throws.  The result is the row
actually written (`none` when the sink fails) together with the number of
log entries produced. -/
def recordRequest (sinkFails : Bool) (ev : UsageEvent) : Option UsageEvent × Nat :=
  if sinkFails then (none, 1) else (some ev, 0)

/-- `recordRequestSuccess` (`RequestForwarder.js` lines 78-89): success row
with the computed token total and a null error message. -/
def successEvent (model provider : String) (usage : Option Usage) : UsageEvent :=
  ⟨model, provider, true, calculateTokensUsed usage, none⟩

/-- `recordRequestFailure` (lines 94-107): `model || 'unknown'`,
`provider || 'unknown'`, zero tokens, `error?.message || 'Unknown error'`. -/
def failureEvent (model provider msg : String) : UsageEvent :=
  ⟨if model = "" then "unknown" else model,
    if provider = "" then "unknown" else provider,
    false, 0, some (if msg = "" then "Unknown error" else msg)⟩

/-! ### Request forwarding (`RequestForwarder.forwardRequest`, lines 27-73) -/

/-- The inputs that determine one `forwardRequest` run: the request's model
and `stream` flag, whether a live response object was supplied, how the
upstream behaves on the synchronous and on the streaming path, and whether
the stats sink fails. -/
structure ForwardInput (α : Type) where
  model : String
  stream : Bool
  hasRes : Bool
  syncB : SyncOutcome α
  streamB : StreamOutcome
  sinkFails : Bool

/-- The error `forwardRequest` rethrows: a classified error (lookup failures
and `chatCompletion` failures) or the raw error rethrown by
`handleStream`. -/
inductive ForwardError
  | classified (e : ClassifiedError)
  | raw (e : RawError)
deriving Repr, DecidableEq

/-- The value `forwardRequest` returns: the upstream response verbatim, or the
`{stream: true}` marker after a completed stream. -/
inductive ForwardValue (α : Type)
  | response (r : α)
  | streamed
deriving Repr, DecidableEq

/-- Everything observable about one `forwardRequest` run. -/
structure ForwardOutput (α : Type) where
  events : List UsageEvent
  rows : List UsageEvent
  logs : Nat
  result : Except ForwardError (ForwardValue α)

/-- `forwardRequest` (lines 27-73).  Lookup failures are rethrown with no
event.  With `stream && res` the request is delegated to
`StreamHandler.handleStream`, which records no usage event itself; a rejected
stream is caught by the forwarder, which records one failure event and
rethrows.  Otherwise `chatCompletion` runs: success records one success event
and returns the response verbatim; failure records one failure event (with the
classified error's message) and rethrows the classified error. -/
def forwardRequest {α : Type} (st : RegistryState) (usageOf : α → Option Usage)
    (inp : ForwardInput α) : ForwardOutput α :=
  match getProviderForModel st inp.model with
  | .error e => ⟨[], [], 0, .error (.classified e)⟩
  | .ok p =>
    if inp.stream ∧ inp.hasRes then
      match handleStreamResult inp.streamB with
      | .ok _ => ⟨[], [], 0, .ok .streamed⟩
      | .error e =>
        let ev := failureEvent inp.model p.name e.message
        let rec1 := recordRequest inp.sinkFails ev
        ⟨[ev], rec1.1.toList, rec1.2, .error (.raw e)⟩
    else
      match inp.syncB with
      | .ok resp =>
        let ev := successEvent inp.model p.name (usageOf resp)
        let rec1 := recordRequest inp.sinkFails ev
        ⟨[ev], rec1.1.toList, rec1.2, .ok (.response resp)⟩
      | .fail e =>
        let ce := classifyError p.name e
        let ev := failureEvent inp.model p.name ce.message
        let rec1 := recordRequest inp.sinkFails ev
        ⟨[ev], rec1.1.toList, rec1.2, .error (.classified ce)⟩

/-! ### Concurrency model of `registerProvider` vs `getProviderForModel`
(`ProviderRegistry.js` lines 34-146)

Node's event loop interleaves tasks only at `await` points; every stretch of
synchronous code runs without preemption.  The model below is *coarser* than
that (it permits a task switch between any two instructions, including between
the individual `modelProviders.set` calls of the registration loop), so every
real interleaving is a behaviour of the model.  One writer runs
`registerProvider(pid, prov, models)`, any number of readers run the read-lock
acquisition and map read of `getProviderForModel`. -/

/-- A healthy registered provider, as built by `initializeProviders` for the
`siliconflow` config entry. -/
def provEx : ProviderR := ⟨"SiliconFlow", some "siliconflow", ⟨true, none, 0⟩⟩

/-- A registry with one model `m1` bound to the healthy provider. -/
def registryEx : RegistryState :=
  ⟨[("m1", provEx)], [("siliconflow", provEx)]⟩

/-- A registered provider whose health record is unhealthy with the error
threshold reached. -/
def provBad : ProviderR := ⟨"P", some "p1", ⟨false, some "boom", 5⟩⟩

/-- A registry with one model `m` bound to the unhealthy provider. -/
def registryBad : RegistryState := ⟨[("m", provBad)], [("p1", provBad)]⟩

/-- Five consecutive failed `chatCompletion` calls. -/
def fiveFailures : List ChatOutcome :=
  List.replicate 5 (.failure ⟨"boom", none, none⟩)

/-- The health state after five failed `chatCompletion` calls followed by one
successful health probe. -/
def probedState : HealthState :=
  (checkHealth (runChat initialHealthState fiveFailures) none).1

lemma mapGet_mem {β : Type} {m : List (String × β)} {k : String} {v : β}
    (h : mapGet m k = some v) : ∃ kk, (kk, v) ∈ m := by
  unfold mapGet at h
  cases hf : m.reverse.find? (fun p => p.1 = k) with
  | none => rw [hf] at h; simp at h
  | some pr =>
    rw [hf] at h
    simp only [Option.some.injEq] at h
    subst h
    have hmem := List.mem_of_find?_eq_some hf
    exact ⟨pr.1, by simpa using List.mem_reverse.mp hmem⟩

lemma runChat_cons (s : HealthState) (o : ChatOutcome) (t : List ChatOutcome) :
    runChat s (o :: t) = runChat (stepChat s o) t := rfl

lemma runChat_healthy_iff (t : List ChatOutcome) (s : HealthState)
    (hs : s.isHealthy = true ↔ s.errorCount < maxErrorCount) :
    (runChat s t).isHealthy = true ↔
      (runChat s t).errorCount < maxErrorCount := by
  induction t generalizing s with
  | nil => simpa [runChat] using hs
  | cons o t ih =>
    rw [runChat_cons]
    apply ih
    cases o with
    | success =>
      simp [stepChat, resetErrorState, maxErrorCount]
    | failure e =>
      simp only [stepChat, handleErrorState, maxErrorCount] at *
      split_ifs with h5
      · simp
        omega
      · have hh : s.isHealthy = true := hs.mpr (by omega)
        simp [hh]
        omega

lemma countErrorEvents_chunks (cs : List String) :
    countErrorEvents (cs.map ResWrite.chunk) = 0 := by
  induction cs with
  | nil => rfl
  | cons c cs ih => simpa [countErrorEvents] using ih

lemma countErrorEvents_append (ws ws' : List ResWrite) :
    countErrorEvents (ws ++ ws') =
      countErrorEvents ws + countErrorEvents ws' := by
  induction ws with
  | nil => simp [countErrorEvents]
  | cons w ws ih =>
    cases w with
    | errorEvent e =>
      simp only [List.cons_append, countErrorEvents, List.append_eq] at ih ⊢
      omega
    | sseHeaders => simpa [countErrorEvents] using ih
    | chunk c => simpa [countErrorEvents] using ih
    | endResponse => simpa [countErrorEvents] using ih
    | httpErrorBody c => simpa [countErrorEvents] using ih

lemma countHttpErrorBodies_chunks (cs : List String) :
    countHttpErrorBodies (cs.map ResWrite.chunk) = 0 := by
  induction cs with
  | nil => rfl
  | cons c cs ih => simpa [countHttpErrorBodies] using ih

lemma countHttpErrorBodies_append (ws ws' : List ResWrite) :
    countHttpErrorBodies (ws ++ ws') =
      countHttpErrorBodies ws + countHttpErrorBodies ws' := by
  induction ws with
  | nil => simp [countHttpErrorBodies]
  | cons w ws ih =>
    cases w with
    | httpErrorBody c =>
      simp only [List.cons_append, countHttpErrorBodies, List.append_eq] at ih ⊢
      omega
    | sseHeaders => simpa [countHttpErrorBodies] using ih
    | chunk c => simpa [countHttpErrorBodies] using ih
    | endResponse => simpa [countHttpErrorBodies] using ih
    | errorEvent e => simpa [countHttpErrorBodies] using ih

/-! ### Claim theorems -/

/-- C7: token accounting.  A usage object with only `prompt_tokens` and
`completion_tokens` set totals to their sum; one with only `total_tokens` set
uses that value directly; one with none of the three fields, or an absent
usage object, totals to 0. -/
theorem C7_token_accounting :
    (∀ p c : Nat, calculateTokensUsed (some ⟨some p, some c, none⟩) = p + c)
    ∧ (∀ t : Nat, calculateTokensUsed (some ⟨none, none, some t⟩) = t)
    ∧ calculateTokensUsed (some ⟨none, none, none⟩) = 0
    ∧ calculateTokensUsed none = 0 := by
  refine ⟨fun p c => ?_, fun t => rfl, rfl, rfl⟩
  show c + p = p + c
  exact Nat.add_comm c p

/-- C5: the error-kind to HTTP-status mapping is a pure total function and
agrees with the claimed table on every error record: Validation and
ModelNotFound give 400, RateLimit 429, Authentication 500 (not 401), the
three provider kinds 503, Timeout and Network 504, and every remaining kind
500. -/
theorem C5_status_mapping :
    ∀ e : ClassifiedError, getStatusCode e = statusCodeSpec e.kind := by
  intro e
  cases e with
  | mk kind etype message code provider =>
    cases kind <;>
      simp [getStatusCode, statusCodeSpec, isProviderErrorInstance]

/-- C4: classification of synchronous `complete` failures into the shared
taxonomy: upstream status 429 gives RateLimit, 401 or 403 gives
Authentication, any other upstream response gives ProviderError carrying the
upstream message/code defaults and the provider name, a request timeout
(`ECONNABORTED`, no response) gives Timeout, and any other no-response
failure gives Network. -/
theorem C4_error_classification (name : String) (e : RawError) :
    (∀ r, e.response = some r → r.status = 429 →
      classifyError name e = rateLimitError (some name))
    ∧ (∀ r, e.response = some r → (r.status = 401 ∨ r.status = 403) →
      classifyError name e = authenticationError (some name))
    ∧ (∀ r, e.response = some r → r.status ≠ 429 → r.status ≠ 401 →
      r.status ≠ 403 →
      classifyError name e =
        providerError
          (r.data.errMessage.getD ("Provider error: " ++ toString r.status))
          (r.data.errCode.getD "provider_error") name)
    ∧ (e.response = none → e.transportCode = some "ECONNABORTED" →
      classifyError name e = timeoutError (some name))
    ∧ (e.response = none → e.transportCode ≠ some "ECONNABORTED" →
      classifyError name e =
        networkError (if e.message = "" then "Network error" else e.message)
          (some name)) := by
  refine ⟨?_, ?_, ?_, ?_, ?_⟩
  · intro r hr hst
    simp [classifyError, hr, hst]
  · intro r hr hst
    rcases hst with h | h <;> simp [classifyError, hr, h]
  · intro r hr h429 h401 h403
    simp [classifyError, hr, h429, h401, h403]
  · intro hr hcode
    simp [classifyError, hr, hcode]
  · intro hr hcode
    simp [classifyError, hr, hcode]

/-- C4 witness: the classification evaluated at one concrete error of each
shape. -/
theorem C4_witness :
    classifyError "p" ⟨"err", some ⟨429, ⟨none, none⟩⟩, none⟩ =
      rateLimitError (some "p")
    ∧ classifyError "p" ⟨"err", some ⟨401, ⟨none, none⟩⟩, none⟩ =
      authenticationError (some "p")
    ∧ classifyError "p" ⟨"err", some ⟨500, ⟨none, none⟩⟩, none⟩ =
      providerError ((none : Option String).getD
          ("Provider error: " ++ toString (500 : Nat)))
        ((none : Option String).getD "provider_error") "p"
    ∧ classifyError "p" ⟨"err", none, some "ECONNABORTED"⟩ =
      timeoutError (some "p")
    ∧ classifyError "p" ⟨"err", none, some "ECONNREFUSED"⟩ =
      networkError (if ("err" : String) = "" then "Network error" else "err")
        (some "p") := by
  refine ⟨?_, ?_, ?_, ?_, ?_⟩
  · exact (C4_error_classification "p" _).1 _ rfl rfl
  · exact (C4_error_classification "p" _).2.1 _ rfl (Or.inl rfl)
  · exact (C4_error_classification "p"
      ⟨"err", some ⟨500, ⟨none, none⟩⟩, none⟩).2.2.1
      ⟨500, ⟨none, none⟩⟩ rfl (by decide) (by decide) (by decide)
  · exact (C4_error_classification "p" _).2.2.2.1 rfl rfl
  · exact (C4_error_classification "p" _).2.2.2.2 rfl (by decide)

/-- C6: the lookup contract.  For every registry whose stored provider ids
are non-empty (as `registerProvider` produces for the real config ids),
`getProviderForModel` fails with `ModelNotFound` when no binding exists,
`ProviderUnavailable` when the bound provider is not registered under its id,
`ProviderUnhealthy` when the bound registered provider is unhealthy, and
returns the bound provider otherwise. -/
theorem C6_lookup_contract (st : RegistryState) (model : String)
    (hwf : WellFormedIds st) :
    getProviderForModel st model = getProviderForModelSpec st model := by
  unfold getProviderForModel getProviderForModelSpec
  cases hm : mapGet st.modelProviders model with
  | none => rfl
  | some p =>
    cases hid : p.providerId with
    | none => simp [idFalsy, hid]
    | some pid =>
      have hne : pid ≠ "" := by
        obtain ⟨kk, hk⟩ := mapGet_mem hm
        have hp := hwf (kk, p) hk
        rw [hid] at hp
        intro hcon
        exact hp (by rw [hcon])
      simp [idFalsy, hid, hne]

/-- C6 witness: the contract evaluated on a concrete registry with one
healthy, registered provider. -/
theorem C6_witness :
    WellFormedIds registryEx
    ∧ getProviderForModel registryEx "m1" =
        getProviderForModelSpec registryEx "m1" := by
  refine ⟨?_, ?_⟩
  · decide
  · exact C6_lookup_contract registryEx "m1" (by decide)

/-- C2 counterexample: after five failed `chatCompletion` calls (error count
5, at the threshold) one successful health probe leaves `errorCount` at 5
instead of resetting it to 0, and the provider is reported healthy by
`getStatus` although its consecutive-error count has reached the threshold —
refuting both halves of the claim at this concrete state. -/
theorem C2_counterexample :
    probedState.errorCount = 5
    ∧ maxErrorCount ≤ probedState.errorCount
    ∧ probedState.errorCount ≠ 0
    ∧ probedState.isHealthy = true
    ∧ (getStatus probedState).healthy = true := by
  decide

/-- C2 (amended): a provider whose error count reached the threshold through
`chatCompletion` failures alone is reported unhealthy by `getStatus` and by
`getProviderForModel`; one successful `chatCompletion` resets the state to
healthy with zero errors; a successful health probe marks the provider
healthy and clears `lastError` but leaves `errorCount` unchanged. -/
theorem C2_amended :
    (∀ t : List ChatOutcome,
      maxErrorCount ≤ (runChat initialHealthState t).errorCount →
        (getStatus (runChat initialHealthState t)).healthy = false)
    ∧ (∀ s : HealthState, stepChat s .success = ⟨true, none, 0⟩)
    ∧ (∀ s : HealthState,
        (checkHealth s none).1 = ⟨true, none, s.errorCount⟩
        ∧ (checkHealth s none).2 = true)
    ∧ (∀ st model p, mapGet st.modelProviders model = some p →
        idFalsy p.providerId = false →
        mapHas st.providers (p.providerId.getD "") = true →
        p.health.isHealthy = false →
        getProviderForModel st model =
          .error (providerUnhealthyError p.name)) := by
  refine ⟨?_, fun s => rfl, fun s => ⟨rfl, rfl⟩, ?_⟩
  · intro t ht
    have hiff := runChat_healthy_iff t initialHealthState
      (by simp [initialHealthState, maxErrorCount])
    have : ¬ (runChat initialHealthState t).isHealthy = true := by
      intro hh
      exact absurd (hiff.mp hh) (by omega)
    simp [getStatus]
    simpa using this
  · intro st model p hm hfalsy hhas hunhealthy
    unfold getProviderForModel
    rw [hm]
    simp [hfalsy, hhas, hunhealthy]

/-- C2 witness: the amended contract evaluated on the concrete trace of five
failures and on the concrete unhealthy registry. -/
theorem C2_witness :
    ((maxErrorCount ≤ (runChat initialHealthState fiveFailures).errorCount)
      ∧ (getStatus (runChat initialHealthState fiveFailures)).healthy = false)
    ∧ getProviderForModel registryBad "m" =
        .error (providerUnhealthyError provBad.name) := by
  refine ⟨⟨by decide, ?_⟩, ?_⟩
  · exact C2_amended.1 fiveFailures (by decide)
  · exact C2_amended.2.2.2 registryBad "m" provBad (by decide) (by decide)
      (by decide) (by decide)

/-- C10: every failed `chatCompletion` updates the health state through
`handleError` — incrementing the consecutive-error count by exactly one and
storing the raw message in `lastError` — and throws the classified error; the
healthy flag, starting from the constructor state and under `chatCompletion`
outcomes alone, is false exactly when the count has reached
`maxErrorCount` (5). -/
theorem C10_error_state (name : String) (s : HealthState) (e : RawError) :
    chatCompletion (α := Unit) name s (.fail e) =
      (handleErrorState s e.message, .error (classifyError name e))
    ∧ (handleErrorState s e.message).errorCount = s.errorCount + 1
    ∧ (handleErrorState s e.message).lastError = some e.message
    ∧ ((handleErrorState s e.message).isHealthy = true ↔
        (s.errorCount + 1 < maxErrorCount ∧ s.isHealthy = true))
    ∧ (∀ t : List ChatOutcome,
        (runChat initialHealthState t).isHealthy = true ↔
          (runChat initialHealthState t).errorCount < maxErrorCount) := by
  refine ⟨rfl, rfl, rfl, ?_, ?_⟩
  · simp only [handleErrorState]
    split_ifs with h5
    · simp
      omega
    · simp
      omega
  · intro t
    exact runChat_healthy_iff t initialHealthState
      (by simp [initialHealthState, maxErrorCount])

/-- C1 counterexample: a streaming request that completes normally emits zero
usage events — the stream handler records nothing and the forwarder records
only on the non-streaming or failure paths — refuting "exactly one UsageEvent
per forwarded request or stream" at this concrete input. -/
theorem C1_counterexample :
    (forwardRequest (α := Usage) registryEx some
      ⟨"m1", true, true, .ok ⟨some 3, some 2, some 5⟩,
        .completes ["data: x"], false⟩).events.length ≠ 1
    ∧ (forwardRequest (α := Usage) registryEx some
      ⟨"m1", true, true, .ok ⟨some 3, some 2, some 5⟩,
        .completes ["data: x"], false⟩).result = .ok .streamed := by
  exact ⟨by decide, rfl⟩

/-- C1 (amended): after a successful lookup, the non-streaming path emits
exactly one usage event whose success flag matches the upstream outcome; the
streaming path emits no event when the session completes normally and exactly
one failure event when it fails; a failed lookup emits none. -/
theorem C1_usage_events {α : Type} (st : RegistryState)
    (usageOf : α → Option Usage) (inp : ForwardInput α) :
    (forwardRequest st usageOf inp).events.length =
      (match getProviderForModel st inp.model with
        | .error _ => 0
        | .ok _ =>
          if inp.stream ∧ inp.hasRes then
            match inp.streamB with
            | .completes _ => 0
            | _ => 1
          else 1)
    ∧ (forwardRequest st usageOf inp).events.map (fun ev => ev.success) =
      (match getProviderForModel st inp.model with
        | .error _ => []
        | .ok _ =>
          if inp.stream ∧ inp.hasRes then
            match inp.streamB with
            | .completes _ => []
            | _ => [false]
          else
            match inp.syncB with
            | .ok _ => [true]
            | .fail _ => [false]) := by
  unfold forwardRequest
  cases hlk : getProviderForModel st inp.model with
  | error e => simp
  | ok p =>
    by_cases hbr : inp.stream ∧ inp.hasRes
    · simp only [hbr, if_true]
      cases hsb : inp.streamB with
      | completes cs => simp [handleStreamResult]
      | openFails e => simp [handleStreamResult, failureEvent]
      | pipelineFails cs e => simp [handleStreamResult, failureEvent]
    · simp only [hbr, if_false]
      cases hsy : inp.syncB with
      | ok r => simp [successEvent]
      | fail e => simp [failureEvent]

/-- C3 counterexample: on an Opening failure (the upstream handle could not
be obtained) the handler has already flushed the SSE response headers — they
are written before the upstream is opened — and it writes one SSE error
event, refuting "an Opening failure transitions to Failed without ever having
written anything (including response headers) to the caller". -/
theorem C3_counterexample :
    handleStreamWrites (.openFails
        ⟨"connect ECONNREFUSED", none, some "ECONNREFUSED"⟩) =
      [.sseHeaders,
        .errorEvent (networkError "connect ECONNREFUSED" none),
        .endResponse] := by
  decide

/-- C3 (amended): the handler flushes the SSE headers first in every
scenario and never writes a structured HTTP error body; an Opening failure
yields exactly one terminal SSE error event; a failure after relay began
writes no further error event; the session resolves successfully exactly when
the upstream relay completes. -/
theorem C3_stream_failure_writes (o : StreamOutcome) :
    countHttpErrorBodies (handleStreamWrites o) = 0
    ∧ (handleStreamWrites o).head? = some .sseHeaders
    ∧ countErrorEvents (handleStreamWrites o) =
      (match o with | .openFails _ => 1 | _ => 0)
    ∧ (handleStreamResult o = .ok () ↔
      (match o with | .completes _ => True | _ => False)) := by
  cases o with
  | completes cs =>
    refine ⟨?_, rfl, ?_, by simp [handleStreamResult]⟩
    · simp [handleStreamWrites, countHttpErrorBodies,
        countHttpErrorBodies_append, countHttpErrorBodies_chunks]
    · simp [handleStreamWrites, countErrorEvents,
        countErrorEvents_append, countErrorEvents_chunks]
  | openFails e =>
    exact ⟨rfl, rfl, rfl, by simp [handleStreamResult]⟩
  | pipelineFails cs e =>
    refine ⟨?_, rfl, ?_, by simp [handleStreamResult]⟩
    · simp [handleStreamWrites, countHttpErrorBodies,
        countHttpErrorBodies_chunks]
    · simp [handleStreamWrites, countErrorEvents, countErrorEvents_chunks]

/-- C8: usage-event recording cannot escape `forwardRequest`: the returned
result (the response, or the original rethrown error) is the same whether or
not the stats sink fails; a failing sink writes no row and produces one log
entry per attempted event (`database.recordRequest` and
`recordRequestFailure` log and swallow). -/
theorem C8_sink_isolation {α : Type} (st : RegistryState)
    (usageOf : α → Option Usage) (inp : ForwardInput α) (b : Bool) :
    (forwardRequest st usageOf { inp with sinkFails := b }).result =
      (forwardRequest st usageOf { inp with sinkFails := false }).result
    ∧ (forwardRequest st usageOf inp).rows =
      (if inp.sinkFails then [] else (forwardRequest st usageOf inp).events)
    ∧ (forwardRequest st usageOf inp).logs =
      (if inp.sinkFails then (forwardRequest st usageOf inp).events.length
        else 0) := by
  unfold forwardRequest
  cases hlk : getProviderForModel st inp.model with
  | error e => cases hsf : inp.sinkFails <;> simp [recordRequest]
  | ok p =>
    by_cases hbr : inp.stream ∧ inp.hasRes
    · simp only [hbr, if_true]
      cases hsb : inp.streamB with
      | completes cs =>
        cases hsf : inp.sinkFails <;> simp [handleStreamResult, recordRequest]
      | openFails e =>
        cases hsf : inp.sinkFails <;>
          cases b <;> simp [handleStreamResult, recordRequest]
      | pipelineFails cs e =>
        cases hsf : inp.sinkFails <;>
          cases b <;> simp [handleStreamResult, recordRequest]
    · simp only [hbr, if_false]
      cases hsy : inp.syncB with
      | ok r =>
        cases hsf : inp.sinkFails <;>
          cases b <;> simp [recordRequest]
      | fail e =>
        cases hsf : inp.sinkFails <;>
          cases b <;> simp [recordRequest]

end VibeAI
